import Mathlib

/-!
Shallow embedding of the event-ticket administration app
(streamlit_app_01.py): TicketID normalization, the custom Seq sort, the
dashboard aggregation, and the four ticket operations (Sell, BulkSell,
CheckIn, Reset), together with proofs of the specified properties.
-/

namespace EventTicket

/-- Python str.zfill on the character list of a string: pad with zeros on
the left up to width w, inserting the padding after a leading sign. -/
def charZfill (w : Nat) (cs : List Char) : List Char :=
  if cs.length < w then
    match cs with
    | [] => List.replicate w '0'
    | c :: rest =>
      if c = '+' ∨ c = '-' then c :: (List.replicate (w - cs.length) '0' ++ rest)
      else List.replicate (w - cs.length) '0' ++ (c :: rest)
  else cs

/-- Python s.zfill(w). -/
def pyZfill (w : Nat) (s : String) : String :=
  String.mk (charZfill w s.data)

/-- The characters before the first dot, i.e. Python s.split(sep)[0] with
a one-character separator. -/
def splitDotHead : List Char → List Char
  | [] => []
  | c :: cs => if c = '.' then [] else c :: splitDotHead cs

/-- load_all_data TicketID cleaning (line 26 of streamlit_app_01.py):
str(x).split(sep)[0].zfill(4) with sep the dot. -/
def normalizeTicketID (s : String) : String :=
  pyZfill 4 (String.mk (splitDotHead s.data))

/-- Bulk-upload TicketID cleaning (line 137): str(x).zfill(4), with no
dot stripping. -/
def bulkNormalize (s : String) : String :=
  pyZfill 4 s

/-- A cell of the Seq column: a numeric cell (modelled by the integer
that int(x) yields on it) or a string cell. -/
inductive SeqCell
  | num (n : Int)
  | str (s : String)
deriving DecidableEq, Repr

/-- The digits of a Python int literal: nonempty, all decimal digits. -/
def pyIntDigits (cs : List Char) : Option Int :=
  if cs ≠ [] ∧ cs.all Char.isDigit then
    some (cs.foldl (fun a c => a * 10 + ((c.toNat : Int) - 48)) 0)
  else none

/-- Python int(s) on a string: optional surrounding spaces, optional
sign, decimal digits; anything else raises, modelled as none. -/
def pyIntStr (s : String) : Option Int :=
  match ((s.data.dropWhile (fun c => c = ' ')).reverse.dropWhile (fun c => c = ' ')).reverse with
  | '-' :: ds => (pyIntDigits ds).map (fun n => -n)
  | '+' :: ds => pyIntDigits ds
  | ds => pyIntDigits ds

/-- The sort key assigned by custom_sort (lines 48-51): 10 if the cell
compares equal to 0 or to the string "0", else int(cell); an int()
failure (exception) is modelled as none. -/
def sortKeyCell : SeqCell → Option Int
  | .num n => some (if n = 0 then 10 else n)
  | .str s => if s = "0" then some 10 else pyIntStr s

/-- Comparison of two rows by their assigned sort key. -/
def keyLE {α : Type} (seqOf : α → SeqCell) (a b : α) : Prop :=
  (sortKeyCell (seqOf a)).getD 0 ≤ (sortKeyCell (seqOf b)).getD 0

instance keyLE.decRel {α : Type} (seqOf : α → SeqCell) : DecidableRel (keyLE seqOf) :=
  fun a b => Int.decLe ((sortKeyCell (seqOf a)).getD 0) ((sortKeyCell (seqOf b)).getD 0)

instance keyLE.total {α : Type} (seqOf : α → SeqCell) : IsTotal α (keyLE seqOf) :=
  ⟨fun a b => Int.le_total ((sortKeyCell (seqOf a)).getD 0) ((sortKeyCell (seqOf b)).getD 0)⟩

instance keyLE.trans {α : Type} (seqOf : α → SeqCell) : IsTrans α (keyLE seqOf) :=
  ⟨fun _ _ _ h1 h2 => Int.le_trans h1 h2⟩

/-- custom_sort (lines 48-51): assign a sort key of 10 to cells equal to
0 or "0" and int(cell) to every other cell, sort ascending by the key and
drop it.  A cell on which int() raises makes the whole call fail. -/
def customSort {α : Type} (seqOf : α → SeqCell) (df : List α) : Option (List α) :=
  if df.all (fun r => (sortKeyCell (seqOf r)).isSome) then
    some (df.insertionSort (keyLE seqOf))
  else none

/-- A normalized ticket row. -/
structure Ticket where
  ticketID : String
  type : String
  category : String
  seq : SeqCell
  admits : Int
  sold : Bool
  visited : Bool
  customer : String
  visitorSeats : Int
  timestamp : Option String
deriving DecidableEq, Repr

/-- Mutate the first element satisfying p (pandas .at on
df.index[mask][0]); none models the IndexError raised when no row
matches. -/
def updateFirst {α : Type} (p : α → Bool) (f : α → α) : List α → Option (List α)
  | [] => none
  | x :: xs => if p x then some (f x :: xs) else (updateFirst p f xs).map (fun l => x :: l)

/-- The field updates of a confirmed manual sale (lines 126-128). -/
def sellUpdate (cust now : String) (t : Ticket) : Ticket :=
  { t with sold := true, customer := cust, timestamp := some now }

/-- Manual sale (lines 125-129): mark the first row whose TicketID equals
the selected ID as sold, regardless of that row's flags. -/
def sellTicket (tickets : List Ticket) (tid cust now : String) : Option (List Ticket) :=
  updateFirst (fun t => t.ticketID == tid) (sellUpdate cust now) tickets

/-- The ticket IDs offered in the manual sale form (lines 117-118). -/
def availableIDs (tickets : List Ticket) (ty cat : String) : List String :=
  (tickets.filter (fun t => t.type == ty && t.category == cat && !t.sold)).map
    (fun t => t.ticketID)

/-- The ticket IDs offered in the check-in form (lines 160-162). -/
def eligibleIDs (tickets : List Ticket) (ty cat : String) : List String :=
  (tickets.filter (fun t => t.type == ty && t.category == cat && t.sold && !t.visited)).map
    (fun t => t.ticketID)

/-- One uploaded bulk-sale row, after astype(str). -/
structure UploadRow where
  ticketID : String
  customerName : String
deriving DecidableEq, Repr

/-- One iteration of the bulk-sale loop (lines 138-144): find the first
ticket with the normalized ID that is still unsold; sell it, or skip the
row silently. -/
def applyBulkRow (now : String) (tickets : List Ticket) (row : UploadRow) : List Ticket :=
  match updateFirst (fun t => t.ticketID == bulkNormalize row.ticketID && !t.sold)
      (sellUpdate row.customerName now) tickets with
  | none => tickets
  | some ts => ts

/-- Bulk sale (lines 135-145). -/
def bulkSell (tickets : List Ticket) (rows : List UploadRow) (now : String) : List Ticket :=
  rows.foldl (applyBulkRow now) tickets

/-- The field updates of a confirmed check-in (lines 171-173). -/
def checkInUpdate (v : Int) (now : String) (t : Ticket) : Ticket :=
  { t with visited := true, visitorSeats := v, timestamp := some now }

/-- Check-in mutation (lines 170-173): the first row bearing the
TicketID, regardless of that row's Sold/Visited flags. -/
def checkInTicket (tickets : List Ticket) (tid : String) (v : Int) (now : String) :
    Option (List Ticket) :=
  updateFirst (fun t => t.ticketID == tid) (checkInUpdate v now) tickets

/-- max_v (line 167): the Admit of the first row bearing the TicketID. -/
def admitOfSelected (tickets : List Ticket) (tid : String) : Option Int :=
  (tickets.find? (fun t => t.ticketID == tid)).map (fun t => t.admits)

/-- The check-in form (lines 164-175): the visitor number input accepts
only values in [1, max_v]; an out-of-range value cannot be submitted, so
the table is left unchanged. -/
def confirmEntry (tickets : List Ticket) (tid : String) (v : Int) (now : String) :
    Option (List Ticket) :=
  match admitOfSelected tickets tid with
  | none => none
  | some maxv =>
    if 1 ≤ v ∧ v ≤ maxv then checkInTicket tickets tid v now else some tickets

/-- The Reset Database handler (lines 63-73): the correct password clears
the sale state of every row; any other password is a silent no-op. -/
def resetDatabase (tickets : List Ticket) (password : String) : List Ticket :=
  if password = "admin123" then
    tickets.map (fun t =>
      { t with sold := false, visited := false, customer := "",
               visitorSeats := 0, timestamp := none })
  else tickets

/-- The groupby key of the dashboard summary (line 82). -/
structure GroupKey where
  seq : SeqCell
  type : String
  category : String
  admits : Int
deriving DecidableEq, Repr

def keyOf (t : Ticket) : GroupKey :=
  { seq := t.seq, type := t.type, category := t.category, admits := t.admits }

/-- One group row of the dashboard summary (lines 82-92). -/
structure SummaryRow where
  seq : SeqCell
  type : String
  category : String
  admits : Int
  totalTickets : Int
  ticketsSold : Int
  totalVisitors : Int
  totalSeats : Int
  seatsSold : Int
  balanceTickets : Int
  balanceSeats : Int
  balanceVisitors : Int
deriving DecidableEq, Repr

/-- The summary row of one group (lines 82-92): the three aggregates,
then the five derived columns. -/
def buildSummaryRow (df : List Ticket) (k : GroupKey) : SummaryRow :=
  let grp := df.filter (fun t => keyOf t == k)
  let n : Int := grp.length
  let sold : Int := (grp.filter (fun t => t.sold)).length
  let vis : Int := (grp.map (fun t => t.visitorSeats)).sum
  { seq := k.seq, type := k.type, category := k.category, admits := k.admits,
    totalTickets := n, ticketsSold := sold, totalVisitors := vis,
    totalSeats := n * k.admits, seatsSold := sold * k.admits,
    balanceTickets := n - sold, balanceSeats := n * k.admits - sold * k.admits,
    balanceVisitors := sold * k.admits - vis }

/-- The distinct group keys present in the table. -/
def groupKeys (df : List Ticket) : List GroupKey :=
  (df.map keyOf).dedup

/-- The dashboard group rows (lines 82-92), before the custom sort and
before the synthetic Total row is appended. -/
def summaryRows (df : List Ticket) : List SummaryRow :=
  (groupKeys df).map (buildSummaryRow df)

/-- The spec invariant: Visited implies Sold, for every row. -/
def visitedImpSold (tickets : List Ticket) : Prop :=
  ∀ t ∈ tickets, t.visited = true → t.sold = true

instance visitedImpSold.dec (tickets : List Ticket) : Decidable (visitedImpSold tickets) := by
  unfold visitedImpSold; infer_instance

/-- Two tickets sharing TicketID "0001": the first unsold, the second
sold and not yet visited (hence the ID is offered for check-in). -/
def dupTable : List Ticket :=
  [ { ticketID := "0001", type := "Public", category := "A", seq := .num 1, admits := 2,
      sold := false, visited := false, customer := "", visitorSeats := 0, timestamp := none },
    { ticketID := "0001", type := "Public", category := "A", seq := .num 1, admits := 2,
      sold := true, visited := false, customer := "Bob", visitorSeats := 0, timestamp := none } ]

/-- dupTable after the check-in of "0001" with 1 visitor: the first row,
which was never sold, is the one that got mutated. -/
def dupTableAfter : List Ticket :=
  [ { ticketID := "0001", type := "Public", category := "A", seq := .num 1, admits := 2,
      sold := false, visited := true, customer := "", visitorSeats := 1,
      timestamp := some "t" },
    { ticketID := "0001", type := "Public", category := "A", seq := .num 1, admits := 2,
      sold := true, visited := false, customer := "Bob", visitorSeats := 0, timestamp := none } ]

/-- A row carrying only a Seq cell and a tag, for exercising custom_sort. -/
structure SRow where
  seq : SeqCell
  tag : Nat
deriving DecidableEq, Repr

/-- Does every Seq == 0 row come after every row with a positive numeric
Seq?  The ordering property the spec asserts of custom_sort output. -/
def zeroRowsLast (l : List SRow) : Bool :=
  l.enum.all (fun p =>
    !(p.2.seq == SeqCell.num 0 || p.2.seq == SeqCell.str "0") ||
      l.enum.all (fun q =>
        (match q.2.seq with
         | .num n => decide (n ≤ 0)
         | .str _ => true) || decide (q.1 < p.1)))

/-- Seq cells [0, 11]: the assigned keys are [10, 11], so custom_sort
leaves the zero row first, before the positive 11. -/
def seqCexRows : List SRow := [⟨SeqCell.num 0, 0⟩, ⟨SeqCell.num 11, 1⟩]

/-- A sold, unvisited ticket "0002" with Admit 3. -/
def soldRow : Ticket :=
  { ticketID := "0002", type := "Public", category := "B", seq := .num 2, admits := 3,
    sold := true, visited := false, customer := "Ann", visitorSeats := 0,
    timestamp := some "s" }

/-- A one-ticket table holding only soldRow. -/
def soldTable : List Ticket := [soldRow]

/-- soldTable after a manual sale of "0002" to "Zed": the Sold flag was
already true, so only Customer and Timestamp move. -/
def soldTableResold : List Ticket := [sellUpdate "Zed" "n" soldRow]

/-- A one-ticket table: an unsold ticket "0003" with Admit 1. -/
def freshTable : List Ticket :=
  [ { ticketID := "0003", type := "Guest", category := "C", seq := .num 3, admits := 1,
      sold := false, visited := false, customer := "", visitorSeats := 0, timestamp := none } ]

/-- Rows whose Seq column reads [3, 0, 1]. -/
def seqDemoRows : List SRow := [⟨SeqCell.num 3, 0⟩, ⟨SeqCell.num 0, 1⟩, ⟨SeqCell.num 1, 2⟩]

/-- The summary row of the single group of dupTable. -/
def demoSummary : SummaryRow :=
  buildSummaryRow dupTable { seq := .num 1, type := "Public", category := "A", admits := 2 }

/-! ## Helper lemmas about updateFirst -/

theorem updateFirst_cons_pos {α : Type} (p : α → Bool) (f : α → α) (x : α) (xs : List α)
    (h : p x = true) : updateFirst p f (x :: xs) = some (f x :: xs) := by
  simp [updateFirst, h]

theorem updateFirst_cons_neg {α : Type} (p : α → Bool) (f : α → α) (x : α) (xs : List α)
    (h : p x = false) :
    updateFirst p f (x :: xs) = (updateFirst p f xs).map (fun l => x :: l) := by
  simp [updateFirst, h]

theorem updateFirst_length {α : Type} (p : α → Bool) (f : α → α) :
    ∀ (l l2 : List α), updateFirst p f l = some l2 → l2.length = l.length := by
  intro l
  induction l with
  | nil => intro l2 h; simp [updateFirst] at h
  | cons x xs ih =>
    intro l2 h
    cases hpx : p x with
    | true =>
      rw [updateFirst_cons_pos p f x xs hpx] at h
      cases h
      simp
    | false =>
      rw [updateFirst_cons_neg p f x xs hpx] at h
      rcases Option.map_eq_some'.mp h with ⟨l3, hl3, rfl⟩
      simp [ih l3 hl3]

/-- Full characterization of a successful updateFirst: it rewrites the
first matching position and nothing else, and that position is the one
find? returns. -/
theorem updateFirst_spec {α : Type} (p : α → Bool) (f : α → α) :
    ∀ (l l2 : List α), updateFirst p f l = some l2 →
      ∃ (i : Nat) (hi : i < l.length),
        p (l.get ⟨i, hi⟩) = true ∧
        (∀ (j : Nat) (hj : j < l.length), j < i → p (l.get ⟨j, hj⟩) = false) ∧
        l.find? p = some (l.get ⟨i, hi⟩) ∧
        l2 = l.set i (f (l.get ⟨i, hi⟩)) := by
  intro l
  induction l with
  | nil => intro l2 h; simp [updateFirst] at h
  | cons x xs ih =>
    intro l2 h
    cases hpx : p x with
    | true =>
      rw [updateFirst_cons_pos p f x xs hpx] at h
      cases h
      refine ⟨0, by simp, ?_, ?_, ?_, ?_⟩
      · simpa using hpx
      · intro j hj hj0; omega
      · simp [List.find?_cons_of_pos, hpx]
      · simp
    | false =>
      rw [updateFirst_cons_neg p f x xs hpx] at h
      rcases Option.map_eq_some'.mp h with ⟨l3, hl3, rfl⟩
      rcases ih l3 hl3 with ⟨i, hi, hp1, hp2, hfind, rfl⟩
      refine ⟨i + 1, by simpa using Nat.succ_lt_succ hi, ?_, ?_, ?_, ?_⟩
      · simpa using hp1
      · intro j hj hji
        cases j with
        | zero => simpa using hpx
        | succ j =>
          have hj2 : j < xs.length := by simpa using Nat.lt_of_succ_lt_succ hj
          have := hp2 j hj2 (Nat.lt_of_succ_lt_succ hji)
          simpa using this
      · rw [List.find?_cons_of_neg]
        · simpa using hfind
        · simp [hpx]
      · simp

/-- Converse: the first matching position determines the result of
updateFirst. -/
theorem updateFirst_of_first_match {α : Type} (p : α → Bool) (f : α → α) :
    ∀ (l : List α) (i : Nat) (hi : i < l.length),
      p (l.get ⟨i, hi⟩) = true →
      (∀ (j : Nat) (hj : j < l.length), j < i → p (l.get ⟨j, hj⟩) = false) →
      updateFirst p f l = some (l.set i (f (l.get ⟨i, hi⟩))) := by
  intro l
  induction l with
  | nil => intro i hi; simp at hi
  | cons x xs ih =>
    intro i hi hp1 hp2
    cases i with
    | zero =>
      rw [updateFirst_cons_pos p f x xs (by simpa using hp1)]
      simp
    | succ i =>
      have hpx : p x = false := by simpa using hp2 0 (by simp) (Nat.succ_pos i)
      rw [updateFirst_cons_neg p f x xs hpx]
      have hi2 : i < xs.length := by simpa using Nat.lt_of_succ_lt_succ hi
      rw [ih i hi2 (by simpa using hp1)
        (fun j hj hji => by
          have := hp2 (j + 1) (by simpa using Nat.succ_lt_succ hj) (Nat.succ_lt_succ hji)
          simpa using this)]
      simp

theorem updateFirst_isSome_of_find? {α : Type} (p : α → Bool) (f : α → α) :
    ∀ (l : List α) (a : α), l.find? p = some a →
      ∃ l2, updateFirst p f l = some l2 := by
  intro l
  induction l with
  | nil => intro a h; simp at h
  | cons x xs ih =>
    intro a h
    cases hpx : p x with
    | true => exact ⟨f x :: xs, updateFirst_cons_pos p f x xs hpx⟩
    | false =>
      rw [List.find?_cons_of_neg _ (by simp [hpx])] at h
      rcases ih a h with ⟨l3, hl3⟩
      exact ⟨x :: l3, by rw [updateFirst_cons_neg p f x xs hpx, hl3]; rfl⟩

/-- Every row of the output of updateFirst is either an input row or the
image under f of an input row. -/
theorem updateFirst_mem {α : Type} (p : α → Bool) (f : α → α)
    (l l2 : List α) (h : updateFirst p f l = some l2) :
    ∀ x ∈ l2, x ∈ l ∨ ∃ y ∈ l, x = f y := by
  rcases updateFirst_spec p f l l2 h with ⟨i, hi, _, _, _, rfl⟩
  intro x hx
  rcases List.mem_or_eq_of_mem_set hx with hx2 | rfl
  · exact Or.inl hx2
  · exact Or.inr ⟨l.get ⟨i, hi⟩, List.get_mem l i hi, rfl⟩

/-- Rows at positions where the predicate does not hold are untouched. -/
theorem updateFirst_get_preserved {α : Type} (p : α → Bool) (f : α → α)
    (l l2 : List α) (h : updateFirst p f l = some l2)
    (i : Nat) (hi : i < l.length) (hi2 : i < l2.length)
    (hpi : p (l.get ⟨i, hi⟩) = false) : l2.get ⟨i, hi2⟩ = l.get ⟨i, hi⟩ := by
  rcases updateFirst_spec p f l l2 h with ⟨k, hk, hpk, _, _, rfl⟩
  have hne : k ≠ i := by
    intro hki
    subst hki
    rw [hpk] at hpi
    exact Bool.true_eq_false.mp hpi
  simp [List.get_eq_getElem, List.getElem_set_ne hne]

/-! ## Normalization lemmas -/

theorem splitDotHead_eq_takeWhile :
    ∀ cs : List Char, splitDotHead cs = cs.takeWhile (fun c => c != '.') := by
  intro cs
  induction cs with
  | nil => rfl
  | cons c cs ih =>
    simp only [splitDotHead, List.takeWhile_cons]
    by_cases hc : c = '.'
    · simp [hc]
    · simp [hc, ih]

theorem splitDotHead_of_no_dot :
    ∀ cs : List Char, '.' ∉ cs → splitDotHead cs = cs := by
  intro cs
  induction cs with
  | nil => intro _; rfl
  | cons c cs ih =>
    intro h
    have hc : c ≠ '.' := fun hc => h (hc ▸ List.mem_cons_self c cs)
    simp only [splitDotHead]
    rw [if_neg (fun hc2 => hc hc2), ih (fun hm => h (List.mem_cons_of_mem c hm))]

/-! ## Sale lemmas -/

theorem sellSoldAux (tid cust now : String) :
    ∀ (tickets out : List Ticket),
      (∀ t ∈ tickets, t.ticketID = tid → t.sold = true) →
      sellTicket tickets tid cust now = some out →
      out.map Ticket.sold = tickets.map Ticket.sold := by
  intro tickets
  induction tickets with
  | nil => intro out hall h; simp [sellTicket, updateFirst] at h
  | cons x xs ih =>
    intro out hall h
    simp only [sellTicket] at h
    cases hpx : (x.ticketID == tid) with
    | true =>
      rw [updateFirst_cons_pos (fun t => t.ticketID == tid) (sellUpdate cust now) x xs hpx] at h
      cases h
      have hx : x.sold = true := hall x (List.mem_cons_self x xs) (by simpa using hpx)
      simp [sellUpdate, hx]
    | false =>
      rw [updateFirst_cons_neg (fun t => t.ticketID == tid) (sellUpdate cust now) x xs hpx] at h
      rcases Option.map_eq_some'.mp h with ⟨l3, hl3, rfl⟩
      have h3 := ih l3 (fun t ht htid => hall t (List.mem_cons_of_mem x ht) htid) hl3
      simp [h3]

theorem sellAgainAux (tid c1 n1 c2 n2 : String) :
    ∀ (tickets out1 out2 : List Ticket),
      sellTicket tickets tid c1 n1 = some out1 →
      sellTicket out1 tid c2 n2 = some out2 →
      out2.map Ticket.sold = out1.map Ticket.sold := by
  intro tickets
  induction tickets with
  | nil => intro out1 out2 h1; simp [sellTicket, updateFirst] at h1
  | cons x xs ih =>
    intro out1 out2 h1 h2
    simp only [sellTicket] at h1 h2
    cases hpx : (x.ticketID == tid) with
    | true =>
      rw [updateFirst_cons_pos (fun t => t.ticketID == tid) (sellUpdate c1 n1) x xs hpx] at h1
      cases h1
      have hpx2 : ((sellUpdate c1 n1 x).ticketID == tid) = true := by
        simpa [sellUpdate] using hpx
      rw [updateFirst_cons_pos (fun t => t.ticketID == tid) (sellUpdate c2 n2)
        (sellUpdate c1 n1 x) xs hpx2] at h2
      cases h2
      simp [sellUpdate]
    | false =>
      rw [updateFirst_cons_neg (fun t => t.ticketID == tid) (sellUpdate c1 n1) x xs hpx] at h1
      rcases Option.map_eq_some'.mp h1 with ⟨l3, hl3, rfl⟩
      rw [updateFirst_cons_neg (fun t => t.ticketID == tid) (sellUpdate c2 n2) x l3 hpx] at h2
      rcases Option.map_eq_some'.mp h2 with ⟨l4, hl4, rfl⟩
      have h5 := ih l3 l4 hl3 hl4
      simp [h5]

/-! ## Claim theorems -/

/-- C2: if every row bearing the TicketID is already sold, a Sell call
with that ID leaves the Sold column pointwise unchanged; and a second
Sell with the same ID right after a successful one is always a no-op on
the Sold column. -/
theorem claim_C2_sell_sold_noop :
    (∀ (tickets : List Ticket) (tid cust now : String) (out : List Ticket),
      (∀ t ∈ tickets, t.ticketID = tid → t.sold = true) →
      sellTicket tickets tid cust now = some out →
      out.map Ticket.sold = tickets.map Ticket.sold) ∧
    (∀ (tickets : List Ticket) (tid c1 n1 c2 n2 : String) (out1 out2 : List Ticket),
      sellTicket tickets tid c1 n1 = some out1 →
      sellTicket out1 tid c2 n2 = some out2 →
      out2.map Ticket.sold = out1.map Ticket.sold) :=
  ⟨fun tickets tid cust now out hall h => sellSoldAux tid cust now tickets out hall h,
   fun tickets tid c1 n1 c2 n2 out1 out2 h1 h2 =>
     sellAgainAux tid c1 n1 c2 n2 tickets out1 out2 h1 h2⟩

theorem claim_C2_witness :
    (∀ t ∈ soldTable, t.ticketID = "0002" → t.sold = true) ∧
    sellTicket soldTable "0002" "Zed" "n" = some soldTableResold ∧
    soldTableResold.map Ticket.sold = soldTable.map Ticket.sold :=
  ⟨by decide, by decide,
   claim_C2_sell_sold_noop.1 soldTable "0002" "Zed" "n" soldTableResold
     (by decide) (by decide)⟩

/-- C4 (amended): the bulk-upload TicketID normalization (zfill only)
agrees with the load-time normalization (split on the dot, then zfill)
exactly on TicketID strings that contain no dot; a bulk TicketID reading
"901.0" stays "901.0" and does not match a loaded "0901". -/
theorem claim_C4_bulk_normalization (s : String) (h : '.' ∉ s.data) :
    bulkNormalize s = normalizeTicketID s := by
  unfold bulkNormalize normalizeTicketID
  rw [splitDotHead_of_no_dot s.data h]

/-- C4 counterexample: the bulk path does not strip a ".0" suffix, so
"901.0" normalizes to "901.0" in bulk upload but to "0901" at load time;
the two normalizations disagree, contrary to the claim. -/
theorem claim_C4_counterexample :
    bulkNormalize "901.0" = "901.0" ∧ normalizeTicketID "901.0" = "0901" ∧
    bulkNormalize "901.0" ≠ normalizeTicketID "901.0" := by
  refine ⟨by decide, by decide, by decide⟩

theorem claim_C4_witness :
    '.' ∉ "12".data ∧ bulkNormalize "12" = normalizeTicketID "12" :=
  ⟨by decide, claim_C4_bulk_normalization "12" (by decide)⟩

/-- C5: in every group row of the dashboard summary, Total_Seats equals
Total_Tickets * Admit and Balance_Tickets equals Total_Tickets -
Tickets_Sold. -/
theorem claim_C5_aggregator (df : List Ticket) (g : SummaryRow)
    (hg : g ∈ summaryRows df) :
    g.totalSeats = g.totalTickets * g.admits ∧
    g.balanceTickets = g.totalTickets - g.ticketsSold := by
  rcases List.mem_map.mp hg with ⟨k, _, rfl⟩
  exact ⟨rfl, rfl⟩

theorem claim_C5_witness :
    demoSummary ∈ summaryRows dupTable ∧
    demoSummary.totalSeats = demoSummary.totalTickets * demoSummary.admits ∧
    demoSummary.balanceTickets = demoSummary.totalTickets - demoSummary.ticketsSold :=
  ⟨by decide, claim_C5_aggregator dupTable demoSummary (by decide)⟩

/-- C6: the Normalizer maps a raw TicketID cell string to the characters
before its first dot, zero-filled on the left to 4 characters; in
particular "901.0" becomes "0901" and "12" becomes "0012". -/
theorem claim_C6_normalizer :
    normalizeTicketID "901.0" = "0901" ∧
    normalizeTicketID "12" = "0012" ∧
    ∀ s : String,
      normalizeTicketID s = pyZfill 4 (String.mk (s.data.takeWhile (fun c => c != '.'))) := by
  refine ⟨by decide, by decide, ?_⟩
  intro s
  unfold normalizeTicketID
  rw [splitDotHead_eq_takeWhile]

theorem claim_C6_witness :
    normalizeTicketID "7.5" =
      pyZfill 4 (String.mk ("7.5".data.takeWhile (fun c => c != '.'))) :=
  claim_C6_normalizer.2.2 "7.5"

/-- C7: Reset with the correct password clears Sold, Visited, Customer,
Visitor_Seats and Timestamp on every row; any other password leaves the
table exactly unchanged, with no error raised. -/
theorem claim_C7_reset (tickets : List Ticket) (password : String) :
    (password = "admin123" →
      (resetDatabase tickets password).length = tickets.length ∧
      ∀ t ∈ resetDatabase tickets password,
        t.sold = false ∧ t.visited = false ∧ t.customer = "" ∧
        t.visitorSeats = 0 ∧ t.timestamp = none) ∧
    (password ≠ "admin123" → resetDatabase tickets password = tickets) := by
  constructor
  · intro hpw
    subst hpw
    constructor
    · simp [resetDatabase]
    · intro t ht
      simp only [resetDatabase, if_pos rfl] at ht
      rcases List.mem_map.mp ht with ⟨u, _, rfl⟩
      exact ⟨rfl, rfl, rfl, rfl, rfl⟩
  · intro hpw
    simp [resetDatabase, hpw]

/-- A successful find? guarantees a successful updateFirst whose output
contains the image of the found element. -/
theorem updateFirst_find?_mem {α : Type} (p : α → Bool) (f : α → α)
    (l : List α) (a : α) (h : l.find? p = some a) :
    ∃ l2, updateFirst p f l = some l2 ∧ f a ∈ l2 := by
  induction l with
  | nil => simp at h
  | cons x xs ih =>
    cases hpx : p x with
    | true =>
      rw [List.find?_cons_of_pos xs hpx] at h
      cases h
      exact ⟨f a :: xs, updateFirst_cons_pos p f a xs hpx, List.mem_cons_self _ _⟩
    | false =>
      rw [List.find?_cons_of_neg xs (by simp [hpx])] at h
      rcases ih h with ⟨l3, hl3, hmem⟩
      exact ⟨x :: l3, by rw [updateFirst_cons_neg p f x xs hpx, hl3]; rfl,
        List.mem_cons_of_mem x hmem⟩

/-- Positions holding an element the predicate rejects are untouched. -/
theorem updateFirst_get?_preserved {α : Type} (p : α → Bool) (f : α → α)
    (l l2 : List α) (h : updateFirst p f l = some l2)
    (i : Nat) (x : α) (hx : l.get? i = some x) (hpx : p x = false) :
    l2.get? i = some x := by
  rcases updateFirst_spec p f l l2 h with ⟨k, hk, hpk, _, _, rfl⟩
  have hne : k ≠ i := by
    intro hki
    subst hki
    have hgx : l.get ⟨k, hk⟩ = x := by
      rw [List.get?_eq_get hk] at hx
      exact Option.some.inj hx
    rw [hgx, hpx] at hpk
    simp at hpk
  rw [List.get?_eq_getElem?, List.getElem?_set_ne hne, ← List.get?_eq_getElem?]
  exact hx

theorem applyBulkRow_length (now : String) (tickets : List Ticket) (u : UploadRow) :
    (applyBulkRow now tickets u).length = tickets.length := by
  unfold applyBulkRow
  cases hup : updateFirst (fun t => t.ticketID == bulkNormalize u.ticketID && !t.sold)
      (sellUpdate u.customerName now) tickets with
  | none => rfl
  | some ts => exact updateFirst_length _ _ tickets ts hup

theorem applyBulkRow_get? (now : String) (tickets : List Ticket) (u : UploadRow)
    (i : Nat) (x : Ticket) (hx : tickets.get? i = some x)
    (hp : (x.ticketID == bulkNormalize u.ticketID && !x.sold) = false) :
    (applyBulkRow now tickets u).get? i = some x := by
  unfold applyBulkRow
  cases hup : updateFirst (fun t => t.ticketID == bulkNormalize u.ticketID && !t.sold)
      (sellUpdate u.customerName now) tickets with
  | none => exact hx
  | some ts => exact updateFirst_get?_preserved _ _ tickets ts hup i x hx hp

theorem applyBulkRow_inv (now : String) (tickets : List Ticket) (u : UploadRow)
    (hinv : visitedImpSold tickets) : visitedImpSold (applyBulkRow now tickets u) := by
  unfold applyBulkRow
  cases hup : updateFirst (fun t => t.ticketID == bulkNormalize u.ticketID && !t.sold)
      (sellUpdate u.customerName now) tickets with
  | none => exact hinv
  | some ts =>
    intro t ht
    rcases updateFirst_mem _ _ tickets ts hup t ht with h1 | ⟨y, _, rfl⟩
    · exact hinv t h1
    · intro _; rfl

theorem bulkSell_inv : ∀ (rows : List UploadRow) (tickets : List Ticket) (now : String),
    visitedImpSold tickets → visitedImpSold (bulkSell tickets rows now) := by
  intro rows
  induction rows with
  | nil => intro tickets _ h; exact h
  | cons u us ih =>
    intro tickets now h
    exact ih (applyBulkRow now tickets u) now (applyBulkRow_inv now tickets u h)

/-- The frame property of the bulk-sale loop: a row that is already sold,
or whose ID is targeted by no upload row, is returned unchanged at its
position. -/
theorem bulkSell_get?_frame :
    ∀ (rows : List UploadRow) (tickets : List Ticket) (now : String)
      (i : Nat) (x : Ticket), tickets.get? i = some x →
      (x.sold = true ∨ x.ticketID ∉ rows.map (fun u => bulkNormalize u.ticketID)) →
      (bulkSell tickets rows now).get? i = some x := by
  intro rows
  induction rows with
  | nil => intro tickets _ i x hx _; exact hx
  | cons u us ih =>
    intro tickets now i x hx hcond
    have hp : (x.ticketID == bulkNormalize u.ticketID && !x.sold) = false := by
      rcases hcond with hs | hnin
      · simp [hs]
      · have hne : x.ticketID ≠ bulkNormalize u.ticketID := by
          intro he
          apply hnin
          rw [List.map_cons, he]
          exact List.mem_cons_self _ _
        simp [hne]
    have h1 := applyBulkRow_get? now tickets u i x hx hp
    have hcond2 : x.sold = true ∨
        x.ticketID ∉ us.map (fun u2 => bulkNormalize u2.ticketID) := by
      rcases hcond with hs | hnin
      · exact Or.inl hs
      · rw [List.map_cons] at hnin
        exact Or.inr (fun hm => hnin (List.mem_cons_of_mem _ hm))
    exact ih (applyBulkRow now tickets u) now i x h1 hcond2

theorem claim_C7_witness :
    ((resetDatabase freshTable "admin123").length = freshTable.length ∧
      ∀ t ∈ resetDatabase freshTable "admin123",
        t.sold = false ∧ t.visited = false ∧ t.customer = "" ∧
        t.visitorSeats = 0 ∧ t.timestamp = none) ∧
    resetDatabase freshTable "nope" = freshTable :=
  ⟨(claim_C7_reset freshTable "admin123").1 rfl,
   (claim_C7_reset freshTable "nope").2 (by decide)⟩

/-- C1 (amended): on a table satisfying the Visited-implies-Sold
invariant, Sell, BulkSell and Reset preserve the invariant for all
inputs, duplicated TicketIDs included; CheckIn preserves it whenever the
first row bearing the chosen TicketID is itself Sold — in particular
whenever TicketIDs are unique and the ID was offered as eligible. -/
theorem claim_C1_invariant_preserved (tickets : List Ticket)
    (hinv : visitedImpSold tickets) :
    (∀ (tid cust now : String) (out : List Ticket),
      sellTicket tickets tid cust now = some out → visitedImpSold out) ∧
    (∀ (rows : List UploadRow) (now : String),
      visitedImpSold (bulkSell tickets rows now)) ∧
    (∀ password : String, visitedImpSold (resetDatabase tickets password)) ∧
    (∀ (tid : String) (v : Int) (now : String) (t0 : Ticket) (out : List Ticket),
      tickets.find? (fun t => t.ticketID == tid) = some t0 → t0.sold = true →
      checkInTicket tickets tid v now = some out → visitedImpSold out) := by
  refine ⟨?_, ?_, ?_, ?_⟩
  · intro tid cust now out h t ht
    rcases updateFirst_mem _ _ tickets out h t ht with h1 | ⟨y, _, rfl⟩
    · exact hinv t h1
    · intro _; rfl
  · intro rows now
    exact bulkSell_inv rows tickets now hinv
  · intro password
    unfold resetDatabase
    by_cases hpw : password = "admin123"
    · rw [if_pos hpw]
      intro t ht
      rcases List.mem_map.mp ht with ⟨u, _, rfl⟩
      intro hv
      simp at hv
    · rw [if_neg hpw]
      exact hinv
  · intro tid v now t0 out hfind hsold hci
    rcases updateFirst_spec _ _ tickets out hci with ⟨i, hi, _, _, hfind2, rfl⟩
    have ht0 : t0 = tickets.get ⟨i, hi⟩ := by
      rw [hfind] at hfind2
      exact Option.some.inj hfind2
    intro t ht
    rcases List.mem_or_eq_of_mem_set ht with h1 | rfl
    · exact hinv t h1
    · intro _
      have hs : (checkInUpdate v now (tickets.get ⟨i, hi⟩)).sold =
          (tickets.get ⟨i, hi⟩).sold := rfl
      rw [hs, ← ht0]
      exact hsold

/-- C1 counterexample: dupTable satisfies the invariant and offers
"0001" for check-in (its second row is sold and unvisited), but CheckIn
mutates the first row bearing "0001", which was never sold, leaving a
table with a row that is Visited but not Sold. -/
theorem claim_C1_counterexample :
    visitedImpSold dupTable ∧
    eligibleIDs dupTable "Public" "A" = ["0001"] ∧
    checkInTicket dupTable "0001" 1 "t" = some dupTableAfter ∧
    ¬ visitedImpSold dupTableAfter :=
  ⟨by decide, by decide, by decide, by decide⟩

theorem claim_C1_witness :
    visitedImpSold (resetDatabase freshTable "oops") ∧
    visitedImpSold (bulkSell freshTable [⟨"0003", "Cy"⟩] "n") :=
  ⟨(claim_C1_invariant_preserved freshTable (by decide)).2.2.1 "oops",
   (claim_C1_invariant_preserved freshTable (by decide)).2.1 [⟨"0003", "Cy"⟩] "n"⟩

/-- C8: a successful CheckIn on a selected ID — the table holding a sold,
unvisited ticket with that ID — with the visitor count constrained by
the form to [1, Admit of the selected row], marks the mutated row
Visited, sets its Visitor_Seats to the count, which lies inside
[0, Admit] of that same row; a count outside [1, Admit] is rejected and
the table is returned unchanged. -/
theorem claim_C8_checkin_range (tickets : List Ticket) (tid : String) (v : Int)
    (now : String) (t0 : Ticket)
    (hfind : tickets.find? (fun t => t.ticketID == tid) = some t0)
    (_helig : ∃ r ∈ tickets, r.ticketID = tid ∧ r.sold = true ∧ r.visited = false) :
    (1 ≤ v → v ≤ t0.admits →
      ∃ out, confirmEntry tickets tid v now = some out ∧
        checkInUpdate v now t0 ∈ out ∧
        (checkInUpdate v now t0).visited = true ∧
        (checkInUpdate v now t0).visitorSeats = v ∧
        0 ≤ (checkInUpdate v now t0).visitorSeats ∧
        (checkInUpdate v now t0).visitorSeats ≤ (checkInUpdate v now t0).admits) ∧
    (¬ (1 ≤ v ∧ v ≤ t0.admits) → confirmEntry tickets tid v now = some tickets) := by
  have hadm : admitOfSelected tickets tid = some t0.admits := by
    unfold admitOfSelected
    rw [hfind]
    rfl
  have hconf : confirmEntry tickets tid v now =
      if 1 ≤ v ∧ v ≤ t0.admits then checkInTicket tickets tid v now else some tickets := by
    unfold confirmEntry
    rw [hadm]
  constructor
  · intro h1 h2
    rcases updateFirst_find?_mem (fun t => t.ticketID == tid) (checkInUpdate v now)
        tickets t0 hfind with ⟨out, hout, hmem⟩
    refine ⟨out, ?_, hmem, rfl, rfl, ?_, ?_⟩
    · rw [hconf, if_pos ⟨h1, h2⟩]
      exact hout
    · show (0 : Int) ≤ v
      omega
    · show v ≤ t0.admits
      exact h2
  · intro hn
    rw [hconf, if_neg hn]

theorem claim_C8_witness :
    ∃ out, confirmEntry soldTable "0002" 2 "n" = some out ∧
      checkInUpdate 2 "n" soldRow ∈ out ∧
      (checkInUpdate 2 "n" soldRow).visited = true ∧
      (checkInUpdate 2 "n" soldRow).visitorSeats = 2 ∧
      0 ≤ (checkInUpdate 2 "n" soldRow).visitorSeats ∧
      (checkInUpdate 2 "n" soldRow).visitorSeats ≤ (checkInUpdate 2 "n" soldRow).admits :=
  (claim_C8_checkin_range soldTable "0002" 2 "n" soldRow (by decide) (by decide)).1
    (by decide) (by decide)

/-- C9: BulkSell skips an input row whose normalized TicketID refers only
to already-sold tickets — every row bearing that ID is returned unchanged
at its position — and it never modifies a ticket whose TicketID is not
targeted by any input row. -/
theorem claim_C9_bulk_frame (tickets : List Ticket) (rows : List UploadRow) (now : String) :
    (∀ u ∈ rows,
      (∀ t ∈ tickets, t.ticketID = bulkNormalize u.ticketID → t.sold = true) →
      ∀ (i : Nat) (x : Ticket), tickets.get? i = some x →
        x.ticketID = bulkNormalize u.ticketID →
        (bulkSell tickets rows now).get? i = some x) ∧
    (∀ (i : Nat) (x : Ticket), tickets.get? i = some x →
      x.ticketID ∉ rows.map (fun u => bulkNormalize u.ticketID) →
      (bulkSell tickets rows now).get? i = some x) := by
  constructor
  · intro u _ hall i x hx hxid
    exact bulkSell_get?_frame rows tickets now i x hx
      (Or.inl (hall x (List.get?_mem hx) hxid))
  · intro i x hx hnin
    exact bulkSell_get?_frame rows tickets now i x hx (Or.inr hnin)

theorem claim_C9_witness :
    (bulkSell soldTable [⟨"0002", "Eve"⟩] "n").get? 0 = some soldRow :=
  (claim_C9_bulk_frame soldTable [⟨"0002", "Eve"⟩] "n").1 ⟨"0002", "Eve"⟩
    (List.mem_cons_self _ _) (by decide) 0 soldRow (by decide) (by decide)

/-- C10: Sell and CheckIn locate the row to mutate solely by TicketID
equality — the first row in table order bearing the ID, regardless of its
Sold or Visited flags — while only the offered ID lists are filtered by
eligibility; with duplicated TicketIDs the mutated row can therefore be a
different row than the eligible one, as dupTable shows: "0001" is offered
because its second row is sold and unvisited, but check-in mutates the
first, unsold row. -/
theorem claim_C10_first_match :
    (∀ (tickets : List Ticket) (tid cust now : String) (i : Nat) (hi : i < tickets.length),
      (tickets.get ⟨i, hi⟩).ticketID = tid →
      (∀ (j : Nat) (hj : j < tickets.length), j < i → (tickets.get ⟨j, hj⟩).ticketID ≠ tid) →
      sellTicket tickets tid cust now =
        some (tickets.set i (sellUpdate cust now (tickets.get ⟨i, hi⟩)))) ∧
    (∀ (tickets : List Ticket) (tid : String) (v : Int) (now : String)
        (i : Nat) (hi : i < tickets.length),
      (tickets.get ⟨i, hi⟩).ticketID = tid →
      (∀ (j : Nat) (hj : j < tickets.length), j < i → (tickets.get ⟨j, hj⟩).ticketID ≠ tid) →
      checkInTicket tickets tid v now =
        some (tickets.set i (checkInUpdate v now (tickets.get ⟨i, hi⟩)))) ∧
    (eligibleIDs dupTable "Public" "A" = ["0001"] ∧
      dupTable.head?.map Ticket.sold = some false ∧
      checkInTicket dupTable "0001" 1 "t" = some dupTableAfter ∧
      dupTableAfter.head?.map Ticket.visited = some true ∧
      dupTableAfter.head?.map Ticket.sold = some false) := by
  refine ⟨?_, ?_, by decide, by decide, by decide, by decide, by decide⟩
  · intro tickets tid cust now i hi hmatch hfirst
    exact updateFirst_of_first_match (fun t => t.ticketID == tid) (sellUpdate cust now)
      tickets i hi (by rw [beq_iff_eq]; exact hmatch)
      (fun j hj hji => by rw [beq_eq_false_iff_ne]; exact hfirst j hj hji)
  · intro tickets tid v now i hi hmatch hfirst
    exact updateFirst_of_first_match (fun t => t.ticketID == tid) (checkInUpdate v now)
      tickets i hi (by rw [beq_iff_eq]; exact hmatch)
      (fun j hj hji => by rw [beq_eq_false_iff_ne]; exact hfirst j hj hji)

theorem claim_C10_witness :
    sellTicket dupTable "0001" "Zed" "n" =
      some (dupTable.set 0 (sellUpdate "Zed" "n" (dupTable.get ⟨0, by decide⟩))) :=
  claim_C10_first_match.1 dupTable "0001" "Zed" "n" 0 (by decide) (by decide)
    (fun j _ hji => absurd hji (Nat.not_lt_zero j))

/-- C3 (amended): custom_sort sorts ascending by the assigned key, under
which a Seq of 0 or "0" receives key 10; hence for any table whose Seq
column reads [3, 0, 1] the output order is [1, 3, 0], and every Seq-0 row
is placed after every row whose positive numeric Seq is less than 10 —
but not after rows with Seq 10 or greater, whose keys equal or exceed the
zero bucket's key. -/
theorem claim_C3_custom_sort :
    (∀ (α : Type) (seqOf : α → SeqCell) (rows : List α),
      rows.map seqOf = [SeqCell.num 3, SeqCell.num 0, SeqCell.num 1] →
      ∃ out, customSort seqOf rows = some out ∧
        out.map seqOf = [SeqCell.num 1, SeqCell.num 3, SeqCell.num 0]) ∧
    (∀ (α : Type) (seqOf : α → SeqCell) (rows out : List α),
      customSort seqOf rows = some out →
      ∀ (i j : Nat) (hi : i < out.length) (hj : j < out.length),
        (seqOf (out.get ⟨i, hi⟩) = SeqCell.num 0 ∨
          seqOf (out.get ⟨i, hi⟩) = SeqCell.str "0") →
        (∃ n : Int, seqOf (out.get ⟨j, hj⟩) = SeqCell.num n ∧ 0 < n ∧ n < 10) →
        j < i) := by
  constructor
  · intro α seqOf rows hmap
    obtain ⟨a, b, c, rfl⟩ : ∃ a b c, rows = [a, b, c] := by
      cases rows with
      | nil => simp at hmap
      | cons a r1 =>
        cases r1 with
        | nil => simp at hmap
        | cons b r2 =>
          cases r2 with
          | nil => simp at hmap
          | cons c r3 =>
            cases r3 with
            | nil => exact ⟨a, b, c, rfl⟩
            | cons d r4 => simp at hmap
    simp only [List.map_cons, List.map_nil, List.cons.injEq, and_true] at hmap
    obtain ⟨ha, hb, hc⟩ := hmap
    refine ⟨[c, a, b], ?_, by simp [ha, hb, hc]⟩
    simp +decide [customSort, List.insertionSort, List.orderedInsert, keyLE,
      sortKeyCell, ha, hb, hc]
  · intro α seqOf rows out hsort i j hi hj hzero hpos
    unfold customSort at hsort
    split at hsort
    case isFalse hg => simp at hsort
    case isTrue hg =>
      cases hsort
      have hs := List.sorted_insertionSort (keyLE seqOf) rows
      have hpw := List.pairwise_iff_get.mp hs
      rcases hpos with ⟨n, hn, hn0, hn10⟩
      have hkj : (sortKeyCell (seqOf ((rows.insertionSort (keyLE seqOf)).get ⟨j, hj⟩))).getD 0
          = n := by
        rw [hn]
        show (some (if n = 0 then (10 : Int) else n)).getD 0 = n
        rw [if_neg (by omega : ¬ n = 0)]
        rfl
      have hki : (sortKeyCell (seqOf ((rows.insertionSort (keyLE seqOf)).get ⟨i, hi⟩))).getD 0
          = 10 := by
        rcases hzero with hz | hz <;> rw [hz] <;> simp [sortKeyCell]
      by_contra hji
      rcases Nat.lt_trichotomy i j with hlt | heq | hgt
      · have hle := hpw ⟨i, hi⟩ ⟨j, hj⟩ hlt
        have hle2 :
            (sortKeyCell (seqOf ((rows.insertionSort (keyLE seqOf)).get ⟨i, hi⟩))).getD 0 ≤
            (sortKeyCell (seqOf ((rows.insertionSort (keyLE seqOf)).get ⟨j, hj⟩))).getD 0 := hle
        rw [hki, hkj] at hle2
        omega
      · subst heq
        rcases hzero with hz | hz <;> rw [hz] at hn
        · cases hn
          omega
        · cases hn
      · exact hji hgt

/-- C3 counterexample: the zero bucket's key is the constant 10, not an
absolute last rank, so on Seq values [0, 11] custom_sort leaves the table
unchanged and the Seq-0 row sits before the positive Seq 11. -/
theorem claim_C3_counterexample :
    customSort SRow.seq seqCexRows = some seqCexRows ∧
    zeroRowsLast seqCexRows = false :=
  ⟨by decide, by decide⟩

theorem claim_C3_witness :
    ∃ out, customSort SRow.seq seqDemoRows = some out ∧
      out.map SRow.seq = [SeqCell.num 1, SeqCell.num 3, SeqCell.num 0] :=
  claim_C3_custom_sort.1 SRow SRow.seq seqDemoRows (by decide)

end EventTicket
